import Mathlib

/-!
Verification of the batch page-text extractor in `main.py` (class
`PDFTextExtractor`).  The program is embedded shallowly: the PDF
rasterization engine (`pdf2image.convert_from_path`), the OCR engine
(`pytesseract.image_to_string`), the filesystem and the timeout oracle are
parameters gathered in an `Env` record, and every method of the class is a
pure function from an extractor state `XSt` (busy flag, disk contents, a
ledger of performed writes, the printed log) to a result paired with the
next state.  Python exceptions are modelled with `Except` over `PyErr`.
-/

set_option maxRecDepth 4000

/-- Python exception values raised by the program, by constructor:
`RuntimeError`, `FileNotFoundError`, `concurrent.futures.TimeoutError`,
and plain `Exception`. -/
inductive PyErr where
  | runtimeError (msg : String)
  | fileNotFound (msg : String)
  | timeoutError (msg : String)
  | exception (msg : String)
  deriving DecidableEq

/-- Outcome of the inner `try` block of `extract_text_from_pdf` before the
`except TimeoutError` / `except Exception` handlers run: either a raw
`TimeoutError` from `future.result(timeout=...)`, or some other exception. -/
inductive InnerErr where
  | timeout
  | exc (e : PyErr)
  deriving DecidableEq

/-- Disk model: association list from file path to file content. -/
abbrev FS : Type := List (String × String)

deriving instance DecidableEq for Except

/-- Does a file exist on disk (`os.path.exists`). -/
def fsExists (d : FS) (p : String) : Bool :=
  d.any (fun q => q.1 == p)

/-- Delete a file from disk (`os.remove`). -/
def fsRemove (d : FS) (p : String) : FS :=
  d.filter (fun q => !(q.1 == p))

/-- Create or overwrite a file (`open(path, "w")` / `image.save`). -/
def fsWrite (d : FS) (p c : String) : FS :=
  (p, c) :: fsRemove d p

/-- Content of a file on disk, if it exists. -/
def fsLookup (d : FS) (p : String) : Option String :=
  (d.find? (fun q => q.1 == p)).map (fun q => q.2)

/-- External collaborators and job parameters: the PDF at `path`
(existence and page count), the OCR engine's per-page output at the fixed
settings `lang='ara'`, `config='--psm 3'`, the timeout oracle for
`future.result(timeout=budget)` around `convert_from_path(first, last)`,
an `os.remove` failure oracle, and the basename stem
`os.path.splitext(os.path.basename(path))[0]`. -/
structure Env where
  path : String
  base : String
  pdfExists : Bool
  numPages : Nat
  pageText : Nat → String
  timesOut : Nat → Nat → Nat → Bool
  ocrFails : Nat → Bool
  removeFails : String → Bool

/-- Extractor state: the `is_running` busy flag plus the observable
filesystem, the ledger of file paths written during the modelled history,
and the log of claim-relevant printed messages. -/
structure XSt where
  is_running : Bool
  disk : FS
  writes : List String
  log : List String
  deriving DecidableEq

/-- Local state of one `extract_text_from_pdf` call: `extracted_text`,
`temp_image_paths`, and the shared disk/ledger/log. -/
structure JobSt where
  texts : List String
  temps : List String
  disk : FS
  writes : List String
  log : List String

/-- Path of the temporary image for one page:
`f"output/temp_page_{page_num}.png"`. -/
def tempPath (n : Nat) : String :=
  "output/temp_page_" ++ toString n ++ ".png"

/-- Log line `f"Error cleaning up temporary file {path}: ..."`. -/
def cleanupMsg (p : String) : String :=
  "Error cleaning up temporary file " ++ p

/-- Log line `f"No images generated for pages {batch_start}-{end_page}"`. -/
def noImagesMsg (a b : Nat) : String :=
  "No images generated for pages " ++ toString a ++ "-" ++ toString b

/-- Pages for which `convert_from_path(path, first_page=first,
last_page=last, dpi=200, fmt='png')` yields an image: the engine returns
one image per existing page of the requested inclusive range, in ascending
page order, clipping the range to the document's page count. -/
def rasterPages (env : Env) (first last : Nat) : List Nat :=
  List.range' first (min last env.numPages + 1 - first)

/-- The values of `range(start_page, total_pages + 1, BATCH_SIZE)` with
`BATCH_SIZE = 10`: the batch start pages. -/
def batchStarts (s total : Nat) : List Nat :=
  (List.range ((total + 10 - s) / 10)).map (fun k => s + 10 * k)

/-- The values of `range(1, max_pages + 1, CHUNK_SIZE)` with
`CHUNK_SIZE = 10` in `convert_to_text` (a Python `int` may be negative,
hence `Int`). -/
def chunkStarts (max_pages : Int) : List Nat :=
  (List.range ((max_pages.toNat + 9) / 10)).map (fun k => 1 + 10 * k)

/-- The per-page loop `for i, image in enumerate(page_images)` of one
batch: save the temporary image, run OCR, append the text, and delete the
temporary image immediately unless `save_images`; `os.remove` failures are
caught and logged, leaving the path in `temp_image_paths`. -/
def runPages (env : Env) (save_images : Bool) : List Nat → JobSt → JobSt × Option InnerErr
  | [], j => (j, none)
  | p :: rest, j =>
    let tp := tempPath p
    let j1 : JobSt :=
      { j with disk := fsWrite j.disk tp "image"
               temps := j.temps ++ [tp]
               writes := j.writes ++ [tp] }
    if env.ocrFails p then
      (j1, some (.exc (.exception ("OCR failed on page " ++ toString p))))
    else
      let j2 : JobSt := { j1 with texts := j1.texts ++ [env.pageText p] }
      let j3 : JobSt :=
        if !save_images && fsExists j2.disk tp then
          if env.removeFails tp then
            { j2 with log := j2.log ++ [cleanupMsg tp] }
          else
            { j2 with disk := fsRemove j2.disk tp, temps := j2.temps.erase tp }
        else j2
      runPages env save_images rest j3

/-- The batch loop `for batch_start in range(start_page, total_pages + 1,
BATCH_SIZE)`: each batch rasterizes pages `batch_start ..
min(batch_start + 9, total_pages)` under a 30-second timeout; a batch
yielding no images is skipped with a logged warning. -/
def runBatches (env : Env) (save_images : Bool) (total : Nat) : List Nat → JobSt → JobSt × Option InnerErr
  | [], j => (j, none)
  | bs :: rest, j =>
    let ep := min (bs + 9) total
    if env.timesOut bs ep 30 then (j, some .timeout)
    else
      let pages := rasterPages env bs ep
      if pages.isEmpty then
        runBatches env save_images total rest
          { j with log := j.log ++ [noImagesMsg bs ep] }
      else
        let r := runPages env save_images pages j
        match r.2 with
        | none => runBatches env save_images total rest r.1
        | some e => (r.1, some e)

/-- The inner `try` body of `extract_text_from_pdf`: with `max_pages`
unset, rasterize page 1 alone under a 10-second timeout and use the length
of the returned image list as `total_pages` (raising when it is empty);
otherwise `total_pages = max_pages + start_page - 1`.  Then run the batch
loop. -/
def extractInner (env : Env) (save_images : Bool) (max_pages : Option Nat) (start_page : Nat) (j0 : JobSt) : JobSt × Option InnerErr :=
  match max_pages with
  | none =>
    if env.timesOut 1 1 10 then (j0, some .timeout)
    else
      let first_page := rasterPages env 1 1
      if first_page.isEmpty then
        (j0, some (.exc (.exception "Could not read the PDF file")))
      else
        runBatches env save_images first_page.length
          (batchStarts start_page first_page.length) j0
  | some m =>
    runBatches env save_images (m + start_page - 1)
      (batchStarts start_page (m + start_page - 1)) j0

/-- Job state at the top of `extract_text_from_pdf`'s processing body. -/
def initJob (st : XSt) : JobSt :=
  { texts := [], temps := [], disk := st.disk, writes := st.writes, log := st.log }

/-- The `finally` cleanup loop over `temp_image_paths`: delete each still
existing temporary image, catching and logging individual failures. -/
def cleanupList (env : Env) : List String → JobSt → JobSt
  | [], j => j
  | t :: rest, j =>
    if fsExists j.disk t then
      if env.removeFails t then
        cleanupList env rest { j with log := j.log ++ [cleanupMsg t] }
      else
        cleanupList env rest { j with disk := fsRemove j.disk t }
    else cleanupList env rest j

/-- Cleanup of all paths recorded in `temp_image_paths`. -/
def cleanupTemps (env : Env) (j : JobSt) : JobSt :=
  cleanupList env j.temps j

/-- Exit stage of `extract_text_from_pdf`: the `except TimeoutError`
handler re-raising a generic `Exception`, the re-raise of any other
exception, the guaranteed `finally` cleanup of temporary images when
`save_images` is false, and the release of the busy flag. -/
def extractFinish (env : Env) (save_images : Bool) (r : JobSt × Option InnerErr) : Except PyErr (List String) × XSt :=
  let j1 := if save_images then r.1 else cleanupTemps env r.1
  let stf : XSt := { is_running := false, disk := j1.disk, writes := j1.writes, log := j1.log }
  let res : Except PyErr (List String) :=
    match r.2 with
    | none => .ok r.1.texts
    | some .timeout =>
      .error (.exception "PDF processing timed out. The file might be too large or corrupt.")
    | some (.exc e) => .error e
  (res, stf)

/-- `PDFTextExtractor.extract_text_from_pdf`: busy-flag guard, existence
check, inner processing, and the exit stage `extractFinish`. -/
def extract_text_from_pdf (env : Env) (st : XSt) (max_pages : Option Nat) (start_page : Nat) (save_images : Bool) : Except PyErr (List String) × XSt :=
  if st.is_running then
    (.error (.runtimeError "Please wait for the previous extraction to finish."), st)
  else if env.pdfExists = false then
    (.error (.fileNotFound ("PDF file not found: " ++ env.path)),
     { st with is_running := false })
  else
    extractFinish env save_images (extractInner env save_images max_pages start_page (initJob st))

/-- `PDFTextExtractor.get_text_from_pdf`: join the page texts with a blank
line (`"\n\n".join(text_list)`), with `save_images` left at its default
`False`. -/
def get_text_from_pdf (env : Env) (st : XSt) (max_pages : Option Nat) (start_page : Nat) : Except PyErr String × XSt :=
  let r := extract_text_from_pdf env st max_pages start_page false
  match r.1 with
  | .ok l => (.ok (String.intercalate "\n\n" l), r.2)
  | .error e => (.error e, r.2)

/-- The chunk loop of `convert_to_text`: for each chunk start page, call
`get_text_from_pdf(pdf_path, max_pages=CHUNK_SIZE, start_page=start_page)`
and accumulate the chunk texts in `all_text`; an exception propagates. -/
def runChunks (env : Env) : List Nat → XSt → List String → Except PyErr (List String) × XSt
  | [], st, acc => (.ok acc, st)
  | s :: rest, st, acc =>
    let r := get_text_from_pdf env st (some 10) s
    match r.1 with
    | .ok t => runChunks env rest r.2 (acc ++ [t])
    | .error e => (.error e, r.2)

/-- `PDFTextExtractor.convert_to_text`: run the chunk loop; if `all_text`
is the empty list, return the fixed failure-indicator string; otherwise
join the chunk texts with blank lines, write the combined file
`output/<base>_output.txt`, and return the combined text. -/
def convert_to_text (env : Env) (st : XSt) (max_pages : Int) : Except PyErr String × XSt :=
  let r := runChunks env (chunkStarts max_pages) st []
  match r.1 with
  | .error e => (.error e, r.2)
  | .ok all_text =>
    if all_text.isEmpty then
      (.ok "Failed to generate study guide.", r.2)
    else
      let final_text := String.intercalate "\n\n" all_text
      let outPath := "output/" ++ env.base ++ "_output.txt"
      (.ok final_text,
       { r.2 with disk := fsWrite r.2.disk outPath final_text
                  writes := r.2.writes ++ [outPath] })

/-- Pages of the batch starting at `bs`: the rasterizer is called on the
inclusive range `batch_start .. min(batch_start + 9, total_pages)`. -/
def batchPages (env : Env) (total : Nat) (bs : Nat) : List Nat :=
  rasterPages env bs (min (bs + 9) total)

/-- The `total_pages` value computed by `extract_text_from_pdf` on the
success path: the length of the page-1 rasterization (which is 1 for a
readable document) when `max_pages` is unset, else
`max_pages + start_page - 1`. -/
def extractTotal (mp : Option Nat) (sp : Nat) : Nat :=
  match mp with
  | none => 1
  | some m => m + sp - 1

/-- The warnings printed for batches that yielded no image. -/
def emptyBatchWarnings (env : Env) (total sp : Nat) : List String :=
  ((batchStarts sp total).filter (fun bs => (batchPages env total bs).isEmpty)).map
    (fun bs => noImagesMsg bs (min (bs + 9) total))

/-- Temp-file bookkeeping invariant of the processing body: every path in
the write ledger either already satisfies the final cleanup contract
(present on disk exactly when its deletion fails, with a logged message
when it does), or is still pending in `temp_image_paths` and present on
disk. -/
def TempOk (env : Env) (j : JobSt) : Prop :=
  ∀ p, p ∈ j.writes →
    (fsExists j.disk p = env.removeFails p ∧
      (env.removeFails p = true → cleanupMsg p ∈ j.log)) ∨
    (p ∈ j.temps ∧ fsExists j.disk p = true)

/-- Idle extractor state over an empty disk. -/
def st0 : XSt :=
  { is_running := false, disk := [], writes := [], log := [] }

/-- Extractor state whose busy flag is held by an in-flight call. -/
def stBusy : XSt :=
  { is_running := true, disk := [], writes := [], log := [] }

/-- A well-behaved 25-page document named `doc.pdf`: no timeouts, no OCR
failures, no deletion failures. -/
def env25 : Env :=
  { path := "doc.pdf", base := "doc", pdfExists := true, numPages := 25
    pageText := fun n => "p" ++ toString n
    timesOut := fun _ _ _ => false
    ocrFails := fun _ => false
    removeFails := fun _ => false }

/-- A well-behaved 3-page document. -/
def env3 : Env :=
  { env25 with numPages := 3, pageText := fun n => "t" ++ toString n }

/-- A document from which rasterization yields no page at all. -/
def envNoPages : Env :=
  { env25 with numPages := 0 }

/-- A path that does not reference an existing file. -/
def envMissing : Env :=
  { env25 with pdfExists := false }

/-- A document whose every rasterization call exceeds its time budget. -/
def envTimeout : Env :=
  { env25 with timesOut := fun _ _ _ => true }

example : chunkStarts 25 = [1, 11, 21] := by decide
example : batchStarts 1 10 = [1] := by decide
example : batchStarts 1 25 = [1, 11, 21] := by decide
example : rasterPages env25 21 30 = [21, 22, 23, 24, 25] := by decide
example : (extract_text_from_pdf env3 st0 none 1 false).1 = .ok ["t1"] := by decide
example : (convert_to_text envNoPages st0 25).1 = .ok "\n\n\n\n" := by decide
example : (convert_to_text env25 stBusy 0).1 = .ok "Failed to generate study guide." := by decide

theorem fsExists_fsRemove_self (d : FS) (p : String) :
    fsExists (fsRemove d p) p = false := by
  induction d with
  | nil => rfl
  | cons e t ih =>
    simp only [fsRemove, fsExists, List.filter_cons, List.any_cons] at *
    by_cases he : e.1 = p
    · simp [he, ih]
    · simp [he, ih]

theorem fsExists_fsRemove_ne (d : FS) (p q : String) (h : q ≠ p) :
    fsExists (fsRemove d p) q = fsExists d q := by
  induction d with
  | nil => rfl
  | cons e t ih =>
    simp only [fsRemove, fsExists, List.filter_cons, List.any_cons] at *
    by_cases he : e.1 = p
    · have hp : (e.1 == p) = true := beq_iff_eq.mpr he
      have hq : (e.1 == q) = false := by
        refine beq_eq_false_iff_ne.mpr ?_
        rw [he]
        exact Ne.symm h
      simp only [hp, Bool.not_true, Bool.false_eq_true, if_false, hq, Bool.false_or]
      exact ih
    · have hp : (e.1 == p) = false := beq_eq_false_iff_ne.mpr he
      simp only [hp, Bool.not_false, if_true, List.any_cons, ih]

theorem fsExists_fsWrite_self (d : FS) (p c : String) :
    fsExists (fsWrite d p c) p = true := by
  simp [fsWrite, fsExists]

theorem fsExists_fsWrite_ne (d : FS) (p c q : String) (h : q ≠ p) :
    fsExists (fsWrite d p c) q = fsExists d q := by
  have h1 : (p == q) = false := beq_eq_false_iff_ne.mpr (Ne.symm h)
  simp only [fsWrite, fsExists, List.any_cons, h1, Bool.false_or]
  exact fsExists_fsRemove_ne d p q h

theorem fsLookup_fsWrite_self (d : FS) (p c : String) :
    fsLookup (fsWrite d p c) p = some c := by
  simp [fsWrite, fsLookup, List.find?]

theorem cleanupList_fields (env : Env) : ∀ (l : List String) (j : JobSt),
    (cleanupList env l j).writes = j.writes ∧ (cleanupList env l j).temps = j.temps ∧
      (cleanupList env l j).texts = j.texts := by
  intro l
  induction l with
  | nil => intro j; exact ⟨rfl, rfl, rfl⟩
  | cons t rest ih =>
    intro j
    simp only [cleanupList]
    split_ifs with h1 h2
    · exact ih _
    · exact ih _
    · exact ih _

theorem cleanupList_log_mono (env : Env) : ∀ (l : List String) (j : JobSt) (s : String),
    s ∈ j.log → s ∈ (cleanupList env l j).log := by
  intro l
  induction l with
  | nil => intro j s hs; exact hs
  | cons t rest ih =>
    intro j s hs
    simp only [cleanupList]
    split_ifs with h1 h2
    · exact ih _ s (List.mem_append_left _ hs)
    · exact ih _ s hs
    · exact ih _ s hs

theorem cleanupList_no_create (env : Env) : ∀ (l : List String) (j : JobSt) (p : String),
    fsExists j.disk p = false → fsExists (cleanupList env l j).disk p = false := by
  intro l
  induction l with
  | nil => intro j p hp; exact hp
  | cons t rest ih =>
    intro j p hp
    simp only [cleanupList]
    split_ifs with h1 h2
    · exact ih _ p hp
    · refine ih _ p ?_
      by_cases hpt : p = t
      · subst hpt; exact fsExists_fsRemove_self _ _
      · rw [fsExists_fsRemove_ne _ _ _ hpt]; exact hp
    · exact ih _ p hp

theorem cleanupList_keeps_failed (env : Env) : ∀ (l : List String) (j : JobSt) (p : String),
    env.removeFails p = true →
    fsExists (cleanupList env l j).disk p = fsExists j.disk p := by
  intro l
  induction l with
  | nil => intro j p _; rfl
  | cons t rest ih =>
    intro j p hrf
    simp only [cleanupList]
    split_ifs with h1 h2
    · exact ih _ p hrf
    · have hpt : p ≠ t := by
        intro hh
        rw [hh] at hrf
        rw [hrf] at h2
        exact h2 rfl
      rw [ih _ p hrf]
      exact fsExists_fsRemove_ne _ _ _ hpt
    · exact ih _ p hrf

theorem cleanupList_removes (env : Env) : ∀ (l : List String) (j : JobSt) (p : String),
    p ∈ l → env.removeFails p = false →
    fsExists (cleanupList env l j).disk p = false := by
  intro l
  induction l with
  | nil => intro j p hp; exact absurd hp (List.not_mem_nil p)
  | cons t rest ih =>
    intro j p hp hrf
    rcases List.mem_cons.mp hp with h | h
    · subst h
      simp only [cleanupList]
      split_ifs with h1 h2
      · rw [hrf] at h2; exact absurd h2 (by simp)
      · refine cleanupList_no_create env rest _ p ?_
        exact fsExists_fsRemove_self _ _
      · refine cleanupList_no_create env rest _ p ?_
        rw [Bool.not_eq_true] at h1
        exact h1
    · simp only [cleanupList]
      split_ifs with h1 h2
      · exact ih _ p h hrf
      · exact ih _ p h hrf
      · exact ih _ p h hrf

theorem cleanupList_not_mem (env : Env) : ∀ (l : List String) (j : JobSt) (p : String),
    p ∉ l → fsExists (cleanupList env l j).disk p = fsExists j.disk p := by
  intro l
  induction l with
  | nil => intro j p _; rfl
  | cons t rest ih =>
    intro j p hp
    have hpt : p ≠ t := fun hh => hp (hh ▸ List.mem_cons_self t rest)
    have hpr : p ∉ rest := fun hh => hp (List.mem_cons_of_mem t hh)
    simp only [cleanupList]
    split_ifs with h1 h2
    · exact ih _ p hpr
    · rw [ih _ p hpr]
      exact fsExists_fsRemove_ne _ _ _ hpt
    · exact ih _ p hpr

theorem cleanupList_logs (env : Env) : ∀ (l : List String) (j : JobSt) (p : String),
    p ∈ l → env.removeFails p = true → fsExists j.disk p = true →
    cleanupMsg p ∈ (cleanupList env l j).log := by
  intro l
  induction l with
  | nil => intro j p hp; exact absurd hp (List.not_mem_nil p)
  | cons t rest ih =>
    intro j p hp hrf hex
    rcases List.mem_cons.mp hp with h | h
    · subst h
      simp only [cleanupList]
      split_ifs
      · refine cleanupList_log_mono env rest _ _ ?_
        exact List.mem_append_right _ (List.mem_singleton_self _)
    · simp only [cleanupList]
      split_ifs with h1 h2
      · exact ih _ p h hrf hex
      · have hpt : p ≠ t := by
          intro hh
          rw [Bool.not_eq_true] at h2
          rw [hh] at hrf
          rw [hrf] at h2
          exact Bool.noConfusion h2
        refine ih _ p h hrf ?_
        rw [fsExists_fsRemove_ne _ _ _ hpt]
        exact hex
      · exact ih _ p h hrf hex

theorem tempOk_log_append (env : Env) (j : JobSt) (ms : List String)
    (h : TempOk env j) : TempOk env { j with log := j.log ++ ms } := by
  intro q hq
  rcases h q hq with ⟨he, hl⟩ | ⟨ht, he⟩
  · exact Or.inl ⟨he, fun hr => List.mem_append_left _ (hl hr)⟩
  · exact Or.inr ⟨ht, he⟩

theorem tempOk_save (env : Env) (j : JobSt) (p : Nat) (c : String)
    (h : TempOk env j) :
    TempOk env
      { j with disk := fsWrite j.disk (tempPath p) c
               temps := j.temps ++ [tempPath p]
               writes := j.writes ++ [tempPath p] } := by
  intro q hq
  by_cases hq2 : q = tempPath p
  · refine Or.inr ⟨?_, ?_⟩
    · exact List.mem_append_right _ (hq2 ▸ List.mem_singleton_self _)
    · rw [hq2]
      exact fsExists_fsWrite_self _ _ _
  · have hq3 : q ∈ j.writes := by
      rcases List.mem_append.mp hq with hh | hh
      · exact hh
      · exact absurd (List.mem_singleton.mp hh) hq2
    rcases h q hq3 with ⟨he, hl⟩ | ⟨ht, he⟩
    · refine Or.inl ⟨?_, hl⟩
      rw [fsExists_fsWrite_ne _ _ _ _ hq2]
      exact he
    · refine Or.inr ⟨List.mem_append_left _ ht, ?_⟩
      rw [fsExists_fsWrite_ne _ _ _ _ hq2]
      exact he

theorem tempOk_inline_remove (env : Env) (j : JobSt) (tp : String)
    (hrf : env.removeFails tp = false) (h : TempOk env j) :
    TempOk env { j with disk := fsRemove j.disk tp, temps := j.temps.erase tp } := by
  intro q hq
  by_cases hq2 : q = tp
  · subst hq2
    refine Or.inl ⟨?_, ?_⟩
    · rw [fsExists_fsRemove_self, hrf]
    · intro hr
      rw [hr] at hrf
      exact Bool.noConfusion hrf
  · rcases h q hq with ⟨he, hl⟩ | ⟨ht, he⟩
    · refine Or.inl ⟨?_, hl⟩
      rw [fsExists_fsRemove_ne _ _ _ hq2]
      exact he
    · refine Or.inr ⟨(List.mem_erase_of_ne hq2).mpr ht, ?_⟩
      rw [fsExists_fsRemove_ne _ _ _ hq2]
      exact he

theorem runPages_tempOk (env : Env) : ∀ (pages : List Nat) (j : JobSt),
    TempOk env j → TempOk env (runPages env false pages j).1 := by
  intro pages
  induction pages with
  | nil => intro j h; exact h
  | cons p rest ih =>
    intro j h
    have h1 := tempOk_save env j p "image" h
    simp only [runPages]
    split_ifs with hocr hcond hrf
    · exact h1
    · exact ih _ (tempOk_log_append env _ _ h1)
    · refine ih _ ?_
      refine tempOk_inline_remove env _ _ ?_ h1
      rw [Bool.not_eq_true] at hrf
      exact hrf
    · exact absurd (by simp [fsExists_fsWrite_self]) hcond

theorem runBatches_tempOk (env : Env) (total : Nat) : ∀ (starts : List Nat) (j : JobSt),
    TempOk env j → TempOk env (runBatches env false total starts j).1 := by
  intro starts
  induction starts with
  | nil => intro j h; exact h
  | cons bs rest ih =>
    intro j h
    simp only [runBatches]
    split_ifs with h1 h2
    · exact h
    · exact ih _ (tempOk_log_append env _ _ h)
    · rcases hr : (runPages env false (rasterPages env bs (min (bs + 9) total)) j).2 with _ | e
      · simp only [hr]
        exact ih _ (runPages_tempOk env _ _ h)
      · simp only [hr]
        exact runPages_tempOk env _ _ h

theorem extractInner_tempOk (env : Env) (mp : Option Nat) (sp : Nat) (j0 : JobSt)
    (h : TempOk env j0) : TempOk env (extractInner env false mp sp j0).1 := by
  cases mp with
  | none =>
    simp only [extractInner]
    split_ifs with h1 h2
    · exact h
    · exact h
    · exact runBatches_tempOk env _ _ _ h
  | some m =>
    exact runBatches_tempOk env _ _ _ h

/-- Cleanup contract of the exit stage for `save_images=False`, given the
temp-file invariant at the end of the processing body. -/
theorem extractFinish_contract (env : Env) (r : JobSt × Option InnerErr)
    (h : TempOk env r.1) :
    ∀ p, p ∈ (extractFinish env false r).2.writes →
      fsExists (extractFinish env false r).2.disk p = env.removeFails p ∧
      (env.removeFails p = true → cleanupMsg p ∈ (extractFinish env false r).2.log) := by
  intro p hp
  have hfields := cleanupList_fields env r.1.temps r.1
  have hpw : p ∈ r.1.writes := by
    rw [← hfields.1]
    exact hp
  have hgoal :
      fsExists (cleanupList env r.1.temps r.1).disk p = env.removeFails p ∧
      (env.removeFails p = true → cleanupMsg p ∈ (cleanupList env r.1.temps r.1).log) := by
    rcases h p hpw with ⟨he, hl⟩ | ⟨ht, he⟩
    · constructor
      · by_cases hrf : env.removeFails p = true
        · rw [cleanupList_keeps_failed env _ _ _ hrf, he]
        · rw [Bool.not_eq_true] at hrf
          rw [hrf] at he
          rw [hrf]
          exact cleanupList_no_create env _ _ _ he
      · intro hrf
        exact cleanupList_log_mono env _ _ _ (hl hrf)
    · constructor
      · by_cases hrf : env.removeFails p = true
        · rw [cleanupList_keeps_failed env _ _ _ hrf, he, hrf]
        · rw [Bool.not_eq_true] at hrf
          rw [hrf]
          exact cleanupList_removes env _ _ _ ht hrf
      · intro hrf
        exact cleanupList_logs env _ _ _ ht hrf he
  exact hgoal

/-- Cleanup contract of a full `extract_text_from_pdf` call with
`save_images=False`, on every exit path: a file written during the call
remains on disk exactly when its deletion fails, and a failing deletion is
logged. -/
theorem extract_cleanup_contract (env : Env) (st : XSt) (mp : Option Nat) (sp : Nat)
    (hw : st.writes = []) :
    ∀ p, p ∈ (extract_text_from_pdf env st mp sp false).2.writes →
      fsExists (extract_text_from_pdf env st mp sp false).2.disk p = env.removeFails p ∧
      (env.removeFails p = true →
        cleanupMsg p ∈ (extract_text_from_pdf env st mp sp false).2.log) := by
  intro p
  by_cases hb : st.is_running = true
  · rw [extract_text_from_pdf, if_pos hb]
    intro hp
    have hp2 : p ∈ st.writes := hp
    rw [hw] at hp2
    exact absurd hp2 (List.not_mem_nil p)
  · by_cases hex : env.pdfExists = false
    · rw [extract_text_from_pdf, if_neg hb, if_pos hex]
      intro hp
      have hp2 : p ∈ st.writes := hp
      rw [hw] at hp2
      exact absurd hp2 (List.not_mem_nil p)
    · rw [extract_text_from_pdf, if_neg hb, if_neg hex]
      have hj0 : TempOk env (initJob st) := by
        intro q hq
        have hq2 : q ∈ st.writes := hq
        rw [hw] at hq2
        exact absurd hq2 (List.not_mem_nil q)
      exact extractFinish_contract env _ (extractInner_tempOk env mp sp _ hj0) p

theorem cleanupList_log_nofail (env : Env) (hrm : ∀ p, env.removeFails p = false) :
    ∀ (l : List String) (j : JobSt), (cleanupList env l j).log = j.log := by
  intro l
  induction l with
  | nil => intro j; rfl
  | cons t rest ih =>
    intro j
    simp only [cleanupList]
    split_ifs with h1 h2
    · rw [hrm t] at h2
      exact absurd h2 (by simp)
    · exact ih _
    · exact ih _

theorem runPages_ok (env : Env) (si : Bool)
    (hocr : ∀ p, env.ocrFails p = false)
    (hrm : ∀ p, env.removeFails p = false) :
    ∀ (pages : List Nat) (j : JobSt),
      (runPages env si pages j).2 = none ∧
      (runPages env si pages j).1.texts = j.texts ++ pages.map env.pageText ∧
      (runPages env si pages j).1.log = j.log := by
  intro pages
  induction pages with
  | nil => intro j; exact ⟨rfl, by simp [runPages], rfl⟩
  | cons p rest ih =>
    intro j
    simp only [runPages]
    split_ifs with h1 h2 h3
    · exact absurd h1 (by simp [hocr p])
    · exact absurd h3 (by simp [hrm])
    · refine ⟨(ih _).1, ?_, ?_⟩
      · rw [(ih _).2.1]
        simp
      · rw [(ih _).2.2]
    · refine ⟨(ih _).1, ?_, ?_⟩
      · rw [(ih _).2.1]
        simp
      · rw [(ih _).2.2]

theorem runBatches_ok (env : Env) (si : Bool) (total : Nat)
    (hto : ∀ a b t, env.timesOut a b t = false)
    (hocr : ∀ p, env.ocrFails p = false)
    (hrm : ∀ p, env.removeFails p = false) :
    ∀ (starts : List Nat) (j : JobSt),
      (runBatches env si total starts j).2 = none ∧
      (runBatches env si total starts j).1.texts =
        j.texts ++ ((starts.map (batchPages env total)).flatten).map env.pageText ∧
      (runBatches env si total starts j).1.log =
        j.log ++ (starts.filter (fun bs => (batchPages env total bs).isEmpty)).map
          (fun bs => noImagesMsg bs (min (bs + 9) total)) := by
  intro starts
  induction starts with
  | nil => intro j; exact ⟨rfl, by simp [runBatches], by simp [runBatches]⟩
  | cons bs rest ih =>
    intro j
    simp only [runBatches]
    rw [if_neg (by simp [hto])]
    by_cases hemp : (rasterPages env bs (min (bs + 9) total)).isEmpty
    · rw [if_pos hemp]
      have hnil : batchPages env total bs = [] := by
        have := hemp
        rw [List.isEmpty_iff] at this
        exact this
      refine ⟨(ih _).1, ?_, ?_⟩
      · rw [(ih _).2.1]
        simp [hnil]
      · rw [(ih _).2.2]
        have hfil : (batchPages env total bs).isEmpty = true := by rw [hnil]; rfl
        simp [hfil]
    · rw [if_neg hemp]
      have hp := runPages_ok env si hocr hrm (rasterPages env bs (min (bs + 9) total)) j
      simp only [hp.1]
      have hne : (batchPages env total bs).isEmpty = false := by
        rw [Bool.eq_false_iff]
        exact hemp
      refine ⟨(ih _).1, ?_, ?_⟩
      · rw [(ih _).2.1, hp.2.1]
        simp [batchPages, List.append_assoc]
      · rw [(ih _).2.2, hp.2.2]
        simp [hne]

theorem batchStarts_nil (s total : Nat) (h : total < s) : batchStarts s total = [] := by
  unfold batchStarts
  have h0 : (total + 10 - s) / 10 = 0 := Nat.div_eq_of_lt (by omega)
  rw [h0]
  rfl

theorem batchStarts_cons (s total : Nat) (h : s ≤ total) :
    batchStarts s total = s :: batchStarts (s + 10) total := by
  unfold batchStarts
  have h1 : total + 10 - s = (total - s) + 10 := by omega
  have h2 : (total + 10 - s) / 10 = (total - s) / 10 + 1 := by
    rw [h1, Nat.add_div_right _ (by norm_num)]
  have h3 : total + 10 - (s + 10) = total - s := by omega
  rw [h2, h3, List.range_succ_eq_map]
  simp only [List.map_cons, List.map_map, Nat.mul_zero, Nat.add_zero]
  refine congrArg (fun l => s :: l) ?_
  refine List.map_congr_left ?_
  intro k _
  simp [Function.comp, Nat.mul_succ]
  omega

theorem batch_flatten (env : Env) (total : Nat) :
    ∀ (n s : Nat), total + 1 - s ≤ n →
      ((batchStarts s total).map (batchPages env total)).flatten =
        List.range' s (min total env.numPages + 1 - s) := by
  intro n
  induction n with
  | zero =>
    intro s hs
    rw [batchStarts_nil s total (by omega)]
    have hz : min total env.numPages + 1 - s = 0 := by
      have := Nat.min_le_left total env.numPages
      omega
    rw [hz]
    rfl
  | succ n ihn =>
    intro s hs
    by_cases h : s ≤ total
    · rw [batchStarts_cons s total h]
      simp only [List.map_cons, List.flatten_cons]
      rw [ihn (s + 10) (by omega)]
      show rasterPages env s (min (s + 9) total) ++ _ = _
      unfold rasterPages
      have hassoc : min (min (s + 9) total) env.numPages =
          min (s + 9) (min total env.numPages) := min_assoc _ _ _
      rw [hassoc]
      by_cases hcase : s + 9 ≤ min total env.numPages
      · rw [min_eq_left hcase]
        have e1 : s + 9 + 1 - s = 10 := by omega
        rw [e1]
        obtain ⟨k, hk⟩ : ∃ k, min total env.numPages + 1 - s = k + 10 :=
          ⟨min total env.numPages + 1 - s - 10, by omega⟩
        rw [hk, show min total env.numPages + 1 - (s + 10) = k from by omega]
        exact List.range'_append_1 s 10 k
      · rw [min_eq_right (by omega)]
        have e2 : min total env.numPages + 1 - (s + 10) = 0 := by omega
        rw [e2]
        simp
    · rw [batchStarts_nil s total (by omega)]
      have hz : min total env.numPages + 1 - s = 0 := by
        have := Nat.min_le_left total env.numPages
        omega
      rw [hz]
      rfl

theorem extractFinish_ok (env : Env) (si : Bool) (r : JobSt × Option InnerErr)
    (hrm : ∀ p, env.removeFails p = false) (h2 : r.2 = none) :
    (extractFinish env si r).1 = .ok r.1.texts ∧
    (extractFinish env si r).2.log = r.1.log := by
  unfold extractFinish
  simp only [h2]
  refine ⟨by trivial, ?_⟩
  cases si with
  | true => rfl
  | false =>
    show (cleanupTemps env r.1).log = r.1.log
    unfold cleanupTemps
    exact cleanupList_log_nofail env hrm _ _

theorem extractInner_ok (env : Env) (si : Bool) (mp : Option Nat) (sp : Nat) (j : JobSt)
    (hto : ∀ a b t, env.timesOut a b t = false)
    (hocr : ∀ p, env.ocrFails p = false)
    (hrm : ∀ p, env.removeFails p = false)
    (hN : mp = none → 1 ≤ env.numPages) :
    (extractInner env si mp sp j).2 = none ∧
    (extractInner env si mp sp j).1.texts =
      j.texts ++
        (List.range' sp (min (extractTotal mp sp) env.numPages + 1 - sp)).map env.pageText ∧
    (extractInner env si mp sp j).1.log =
      j.log ++ emptyBatchWarnings env (extractTotal mp sp) sp := by
  cases mp with
  | some m =>
    simp only [extractInner, extractTotal]
    have hrb := runBatches_ok env si (m + sp - 1) hto hocr hrm (batchStarts sp (m + sp - 1)) j
    refine ⟨hrb.1, ?_, ?_⟩
    · rw [hrb.2.1, batch_flatten env (m + sp - 1) (m + sp - 1 + 1 - sp) sp (le_refl _)]
    · rw [hrb.2.2]
      rfl
  | none =>
    simp only [extractInner, extractTotal]
    rw [if_neg (by simp [hto])]
    have hfp : rasterPages env 1 1 = [1] := by
      unfold rasterPages
      rw [min_eq_left (hN rfl)]
      rfl
    rw [hfp]
    rw [if_neg (by simp)]
    simp only [List.length_cons, List.length_nil]
    have hrb := runBatches_ok env si 1 hto hocr hrm (batchStarts sp 1) j
    refine ⟨hrb.1, ?_, ?_⟩
    · rw [hrb.2.1, batch_flatten env 1 (1 + 1 - sp) sp (le_refl _)]
    · rw [hrb.2.2]
      rfl

theorem extract_ok (env : Env) (st : XSt) (mp : Option Nat) (sp : Nat) (si : Bool)
    (hrun : st.is_running = false)
    (hpdf : env.pdfExists = true)
    (hto : ∀ a b t, env.timesOut a b t = false)
    (hocr : ∀ p, env.ocrFails p = false)
    (hrm : ∀ p, env.removeFails p = false)
    (hN : mp = none → 1 ≤ env.numPages) :
    (extract_text_from_pdf env st mp sp si).1 =
      .ok ((List.range' sp (min (extractTotal mp sp) env.numPages + 1 - sp)).map env.pageText) ∧
    (extract_text_from_pdf env st mp sp si).2.log =
      st.log ++ emptyBatchWarnings env (extractTotal mp sp) sp := by
  rw [extract_text_from_pdf, if_neg (by simp [hrun]), if_neg (by simp [hpdf])]
  have hi := extractInner_ok env si mp sp (initJob st) hto hocr hrm hN
  have hf := extractFinish_ok env si _ hrm hi.1
  refine ⟨?_, ?_⟩
  · rw [hf.1, hi.2.1]
    rfl
  · rw [hf.2, hi.2.2]
    rfl

theorem extract_busy (env : Env) (st : XSt) (mp : Option Nat) (sp : Nat) (si : Bool)
    (h : st.is_running = true) :
    extract_text_from_pdf env st mp sp si =
      (.error (.runtimeError "Please wait for the previous extraction to finish."), st) := by
  rw [extract_text_from_pdf, if_pos h]

theorem get_busy (env : Env) (st : XSt) (mp : Option Nat) (sp : Nat)
    (h : st.is_running = true) :
    get_text_from_pdf env st mp sp =
      (.error (.runtimeError "Please wait for the previous extraction to finish."), st) := by
  unfold get_text_from_pdf
  rw [extract_busy env st mp sp false h]

theorem XSt_idle_eq (st : XSt) (h : st.is_running = false) :
    { st with is_running := false } = st := by
  cases st with
  | mk a b c d =>
    simp only [XSt.is_running] at h
    rw [h]

theorem extract_notfound (env : Env) (st : XSt) (mp : Option Nat) (sp : Nat) (si : Bool)
    (h1 : st.is_running = false) (h2 : env.pdfExists = false) :
    extract_text_from_pdf env st mp sp si =
      (.error (.fileNotFound ("PDF file not found: " ++ env.path)), st) := by
  rw [extract_text_from_pdf, if_neg (by simp [h1]), if_pos h2, XSt_idle_eq st h1]

theorem get_notfound (env : Env) (st : XSt) (mp : Option Nat) (sp : Nat)
    (h1 : st.is_running = false) (h2 : env.pdfExists = false) :
    get_text_from_pdf env st mp sp =
      (.error (.fileNotFound ("PDF file not found: " ++ env.path)), st) := by
  unfold get_text_from_pdf
  rw [extract_notfound env st mp sp false h1 h2]

theorem extract_released (env : Env) (st : XSt) (mp : Option Nat) (sp : Nat) (si : Bool)
    (h : st.is_running = false) :
    (extract_text_from_pdf env st mp sp si).2.is_running = false := by
  rw [extract_text_from_pdf, if_neg (by simp [h])]
  by_cases hp : env.pdfExists = false
  · rw [if_pos hp]
  · rw [if_neg hp]
    rfl

theorem get_st_eq (env : Env) (st : XSt) (mp : Option Nat) (sp : Nat) :
    (get_text_from_pdf env st mp sp).2 = (extract_text_from_pdf env st mp sp false).2 := by
  unfold get_text_from_pdf
  rcases h : (extract_text_from_pdf env st mp sp false).1 with e | l
  · simp [h]
  · simp [h]

theorem get_released (env : Env) (st : XSt) (mp : Option Nat) (sp : Nat)
    (h : st.is_running = false) :
    (get_text_from_pdf env st mp sp).2.is_running = false := by
  rw [get_st_eq]
  exact extract_released env st mp sp false h

theorem chunkStarts_cons_of_pos (m : Int) (h : 1 ≤ m) :
    ∃ rest, chunkStarts m = 1 :: rest := by
  unfold chunkStarts
  have h1 : 1 ≤ m.toNat := by omega
  obtain ⟨k, hk⟩ : ∃ k, (m.toNat + 9) / 10 = k + 1 := by
    refine ⟨(m.toNat + 9) / 10 - 1, ?_⟩
    have : 1 ≤ (m.toNat + 9) / 10 := by
      refine Nat.le_div_iff_mul_le (by norm_num) |>.mpr ?_
      omega
    omega
  rw [hk, List.range_succ_eq_map]
  exact ⟨_, rfl⟩

theorem chunkStarts_nil_of_nonpos (m : Int) (h : m < 1) : chunkStarts m = [] := by
  unfold chunkStarts
  have h1 : m.toNat = 0 := by omega
  rw [h1]
  rfl

theorem convert_empty (env : Env) (st : XSt) (m : Int) (h : m < 1) :
    convert_to_text env st m = (.ok "Failed to generate study guide.", st) := by
  unfold convert_to_text
  rw [chunkStarts_nil_of_nonpos m h]
  rfl

theorem convert_busy (env : Env) (st : XSt) (m : Int)
    (h : st.is_running = true) (hm : 1 ≤ m) :
    convert_to_text env st m =
      (.error (.runtimeError "Please wait for the previous extraction to finish."), st) := by
  obtain ⟨rest, hcs⟩ := chunkStarts_cons_of_pos m hm
  unfold convert_to_text
  rw [hcs]
  simp only [runChunks, get_busy env st (some 10) 1 h]

theorem convert_notfound (env : Env) (st : XSt) (m : Int)
    (h1 : st.is_running = false) (h2 : env.pdfExists = false) (hm : 1 ≤ m) :
    convert_to_text env st m =
      (.error (.fileNotFound ("PDF file not found: " ++ env.path)), st) := by
  obtain ⟨rest, hcs⟩ := chunkStarts_cons_of_pos m hm
  unfold convert_to_text
  rw [hcs]
  simp only [runChunks, get_notfound env st (some 10) 1 h1 h2]

theorem runChunks_released (env : Env) : ∀ (starts : List Nat) (st : XSt) (acc : List String),
    st.is_running = false → (runChunks env starts st acc).2.is_running = false := by
  intro starts
  induction starts with
  | nil => intro st acc h; exact h
  | cons s rest ih =>
    intro st acc h
    simp only [runChunks]
    have hrel : (get_text_from_pdf env st (some 10) s).2.is_running = false :=
      get_released env st (some 10) s h
    rcases hg : (get_text_from_pdf env st (some 10) s).1 with e | t
    · simp only [hg]
      exact hrel
    · simp only [hg]
      exact ih _ _ hrel

theorem convert_released (env : Env) (st : XSt) (m : Int) (h : st.is_running = false) :
    (convert_to_text env st m).2.is_running = false := by
  unfold convert_to_text
  have hrc := runChunks_released env (chunkStarts m) st [] h
  rcases hr : (runChunks env (chunkStarts m) st []).1 with e | ts
  · simp only [hr]
    exact hrc
  · simp only [hr]
    split_ifs
    · exact hrc
    · exact hrc

/-- Claim C4 (amended): if the chunk loop succeeds and every chunk yields
empty text (with at least one chunk processed), `convert_to_text` returns
the chunk texts joined by blank-line separators — not the failure-indicator
string — and writes a combined output file holding exactly those
separators; the failure-indicator string is reserved for an empty chunk
list. -/
theorem c4_empty_chunks_return_joined_separators (env : Env) (st : XSt) (m : Int) (ts : List String)
    (hr : (runChunks env (chunkStarts m) st []).1 = .ok ts)
    (hne : ts ≠ [])
    (hall : ∀ c ∈ ts, c = "") :
    (convert_to_text env st m).1 = .ok (String.intercalate "\n\n" ts) ∧
    fsLookup (convert_to_text env st m).2.disk ("output/" ++ env.base ++ "_output.txt") =
      some (String.intercalate "\n\n" ts) := by
  unfold convert_to_text
  simp only [hr]
  have hemp : ts.isEmpty = false := by
    cases ts with
    | nil => exact absurd rfl hne
    | cons a l => rfl
  rw [if_neg (by simp [hemp])]
  exact ⟨rfl, fsLookup_fsWrite_self _ _ _⟩

example : (runChunks envNoPages (chunkStarts 25) st0 []).1 = .ok ["", "", ""] := by decide
example :
    (get_text_from_pdf env25 st0 (some 10) 21).1 =
      .ok (String.intercalate "\n\n" ((List.range' 21 5).map env25.pageText)) := by decide
example :
    fsLookup (convert_to_text env25 st0 25).2.disk "output/doc_output.txt" =
      some (String.intercalate "\n\n"
        [String.intercalate "\n\n" ((List.range' 1 10).map env25.pageText),
         String.intercalate "\n\n" ((List.range' 11 10).map env25.pageText),
         String.intercalate "\n\n" ((List.range' 21 5).map env25.pageText)]) := by decide
example : ("output/doc_text_chunk_1.txt" ∉ (convert_to_text env25 st0 25).2.writes) := by decide
example : (extractInner envTimeout false (some 5) 1 (initJob st0)).2 = some InnerErr.timeout := by
  decide
example : tempPath 1 ∈ (extract_text_from_pdf env25 st0 (some 25) 1 false).2.writes := by decide

/-- Claim C4 (counterexample): with a document for which every chunk
yields empty text, `convert_to_text(path, 25)` returns the blank-line
separators `"\n\n\n\n"`, not the failure-indicator string, while writing
the combined file; the claim's stated return value is wrong. -/
theorem c4_counterexample_empty_chunks_not_failure_string :
    (convert_to_text envNoPages st0 25).1 = .ok "\n\n\n\n" ∧
    (convert_to_text envNoPages st0 25).1 ≠ .ok "Failed to generate study guide." ∧
    (∀ e : PyErr, (convert_to_text envNoPages st0 25).1 ≠ .error e) ∧
    fsLookup (convert_to_text envNoPages st0 25).2.disk "output/doc_output.txt" =
      some "\n\n\n\n" := by
  refine ⟨by decide, by decide, ?_, by decide⟩
  intro e he
  rw [show (convert_to_text envNoPages st0 25).1 = .ok "\n\n\n\n" from by decide] at he
  exact Except.noConfusion he

/-- Claim C4 (witness): the amended theorem applied to the concrete
empty-text scenario. -/
theorem c4_empty_chunks_return_joined_separators_witness :
    (convert_to_text envNoPages st0 25).1 = .ok (String.intercalate "\n\n" ["", "", ""]) ∧
    fsLookup (convert_to_text envNoPages st0 25).2.disk
        ("output/" ++ envNoPages.base ++ "_output.txt") =
      some (String.intercalate "\n\n" ["", "", ""]) :=
  c4_empty_chunks_return_joined_separators envNoPages st0 25 ["", "", ""]
    (by decide) (by decide) (by decide)

/-- Claim C10: when `convert_to_text` is called with `max_pages < 1` the
chunk loop runs zero iterations, the literal failure-indicator string is
returned, and the state — disk, write ledger and log included — is
returned unchanged, so no chunk file and no combined file is written. -/
theorem c10_nonpositive_max_pages_failure_string (env : Env) (st : XSt) (m : Int)
    (h : m < 1) :
    chunkStarts m = [] ∧
    convert_to_text env st m = (.ok "Failed to generate study guide.", st) :=
  ⟨chunkStarts_nil_of_nonpos m h, convert_empty env st m h⟩

/-- Claim C10 (witness): the theorem applied at `max_pages = 0`. -/
theorem c10_nonpositive_max_pages_failure_string_witness :
    chunkStarts 0 = [] ∧
    convert_to_text env25 st0 0 = (.ok "Failed to generate study guide.", st0) :=
  c10_nonpositive_max_pages_failure_string env25 st0 0 (by decide)

/-- Claim C2 (code evaluation at the failing input): on a 3-page document
with `max_pages` unset, `extract_text_from_pdf` sets `total_pages` to the
length of the page-1 rasterization — which is 1 — and therefore returns
the text of page 1 alone instead of processing the whole document. -/
theorem c2_probe_processes_only_page_one :
    (extract_text_from_pdf env3 st0 none 1 false).1 = .ok [env3.pageText 1] ∧
    env3.numPages = 3 := by
  exact ⟨by decide, rfl⟩

/-- Claim C1 (code evaluation at the failing input): running
`convert_to_text` over a 25-page document writes the combined output file
but no per-chunk `_text_chunk_<n>.txt` file at all — the chunk-file
writing shown in the method's docstring is not part of the executed
loop. -/
theorem c1_no_chunk_files_written :
    "output/doc_output.txt" ∈ (convert_to_text env25 st0 25).2.writes ∧
    "output/doc_text_chunk_1.txt" ∉ (convert_to_text env25 st0 25).2.writes ∧
    "output/doc_text_chunk_2.txt" ∉ (convert_to_text env25 st0 25).2.writes ∧
    "output/doc_text_chunk_3.txt" ∉ (convert_to_text env25 st0 25).2.writes ∧
    fsLookup (convert_to_text env25 st0 25).2.disk "output/doc_text_chunk_1.txt" = none := by
  decide

/-- Claim C3: over a 25-page document, `convert_to_text(path, 25)` runs
exactly the chunk starts 1, 11, 21; the three chunk extractions return the
texts of pages 1-10, 11-20 and 21-25 joined by blank lines; and the
returned and persisted combined text equals the three chunk texts joined
by a blank line. -/
theorem c3_chunking_scenario :
    chunkStarts 25 = [1, 11, 21] ∧
    (get_text_from_pdf env25 st0 (some 10) 1).1 =
      .ok (String.intercalate "\n\n" ((List.range' 1 10).map env25.pageText)) ∧
    (get_text_from_pdf env25 st0 (some 10) 11).1 =
      .ok (String.intercalate "\n\n" ((List.range' 11 10).map env25.pageText)) ∧
    (get_text_from_pdf env25 st0 (some 10) 21).1 =
      .ok (String.intercalate "\n\n" ((List.range' 21 5).map env25.pageText)) ∧
    (convert_to_text env25 st0 25).1 =
      .ok (String.intercalate "\n\n"
        [String.intercalate "\n\n" ((List.range' 1 10).map env25.pageText),
         String.intercalate "\n\n" ((List.range' 11 10).map env25.pageText),
         String.intercalate "\n\n" ((List.range' 21 5).map env25.pageText)]) ∧
    fsLookup (convert_to_text env25 st0 25).2.disk "output/doc_output.txt" =
      some (String.intercalate "\n\n"
        [String.intercalate "\n\n" ((List.range' 1 10).map env25.pageText),
         String.intercalate "\n\n" ((List.range' 11 10).map env25.pageText),
         String.intercalate "\n\n" ((List.range' 21 5).map env25.pageText)]) := by
  decide

/-- Claim C5 (counterexample): `convert_to_text` invoked while the busy
flag is held, with `max_pages = 0`, does not fail with the Busy
`RuntimeError`: it returns the failure-indicator string normally, so not
every operation invoked while the flag is true fails with a Busy error. -/
theorem c5_counterexample_busy_convert_returns_ok :
    stBusy.is_running = true ∧
    convert_to_text env25 stBusy 0 = (.ok "Failed to generate study guide.", stBusy) ∧
    (∀ e : PyErr, (convert_to_text env25 stBusy 0).1 ≠ .error e) := by
  refine ⟨rfl, by decide, ?_⟩
  intro e he
  rw [show (convert_to_text env25 stBusy 0).1 = .ok "Failed to generate study guide." from
    by decide] at he
  exact Except.noConfusion he

/-- Claim C5 (amended): while the busy flag is true,
`extract_text_from_pdf` and `get_text_from_pdf` fail immediately with the
Busy `RuntimeError` and leave the state — flag, disk, write ledger and log
— untouched, and so does `convert_to_text` whenever `max_pages >= 1`;
`convert_to_text` with `max_pages < 1` performs no extraction and returns
the failure-indicator string with the state untouched.  Starting from an
idle state, the flag is false again on every exit of each operation. -/
theorem c5_busy_flag_guard (env : Env) (st : XSt) (mp : Option Nat) (sp : Nat)
    (si : Bool) (m : Int) :
    (st.is_running = true →
      extract_text_from_pdf env st mp sp si =
        (.error (.runtimeError "Please wait for the previous extraction to finish."), st)) ∧
    (st.is_running = true →
      get_text_from_pdf env st mp sp =
        (.error (.runtimeError "Please wait for the previous extraction to finish."), st)) ∧
    (st.is_running = true → 1 ≤ m →
      convert_to_text env st m =
        (.error (.runtimeError "Please wait for the previous extraction to finish."), st)) ∧
    (st.is_running = true → m < 1 →
      convert_to_text env st m = (.ok "Failed to generate study guide.", st)) ∧
    (st.is_running = false → (extract_text_from_pdf env st mp sp si).2.is_running = false) ∧
    (st.is_running = false → (get_text_from_pdf env st mp sp).2.is_running = false) ∧
    (st.is_running = false → (convert_to_text env st m).2.is_running = false) :=
  ⟨extract_busy env st mp sp si, get_busy env st mp sp,
   convert_busy env st m,
   fun _ hm => convert_empty env st m hm,
   extract_released env st mp sp si, get_released env st mp sp,
   convert_released env st m⟩

/-- Claim C5 (witness): the amended theorem applied at concrete states. -/
theorem c5_busy_flag_guard_witness :
    extract_text_from_pdf env25 stBusy (some 5) 1 false =
      (.error (.runtimeError "Please wait for the previous extraction to finish."), stBusy) ∧
    convert_to_text env25 stBusy 5 =
      (.error (.runtimeError "Please wait for the previous extraction to finish."), stBusy) ∧
    convert_to_text env25 stBusy 0 = (.ok "Failed to generate study guide.", stBusy) ∧
    (extract_text_from_pdf env25 st0 (some 5) 1 false).2.is_running = false :=
  ⟨(c5_busy_flag_guard env25 stBusy (some 5) 1 false 5).1 rfl,
   (c5_busy_flag_guard env25 stBusy (some 5) 1 false 5).2.2.1 rfl (by decide),
   (c5_busy_flag_guard env25 stBusy (some 5) 1 false 0).2.2.2.1 rfl (by decide),
   (c5_busy_flag_guard env25 st0 (some 5) 1 false 5).2.2.2.2.1 rfl⟩

/-- Claim C9 (counterexample): `convert_to_text` called with a
nonexistent path and `max_pages = 0` does not fail with
`FileNotFoundError`: the chunk loop never runs, so the path is never
checked and the failure-indicator string is returned normally. -/
theorem c9_counterexample_missing_file_convert_ok :
    envMissing.pdfExists = false ∧
    convert_to_text envMissing st0 0 = (.ok "Failed to generate study guide.", st0) ∧
    (∀ e : PyErr, (convert_to_text envMissing st0 0).1 ≠ .error e) := by
  refine ⟨rfl, by decide, ?_⟩
  intro e he
  rw [show (convert_to_text envMissing st0 0).1 = .ok "Failed to generate study guide." from
    by decide] at he
  exact Except.noConfusion he

/-- Claim C9 (amended): with a path that does not reference an existing
file, `extract_text_from_pdf` and `get_text_from_pdf` fail with
`FileNotFoundError` and return the state untouched — in particular before
any temporary image is created — and so does `convert_to_text` whenever
`max_pages >= 1`; `convert_to_text` with `max_pages < 1` returns the
failure-indicator string without error and without touching the
filesystem. -/
theorem c9_missing_file_not_found (env : Env) (st : XSt) (mp : Option Nat) (sp : Nat)
    (si : Bool) (m : Int) (h1 : st.is_running = false) (h2 : env.pdfExists = false) :
    extract_text_from_pdf env st mp sp si =
      (.error (.fileNotFound ("PDF file not found: " ++ env.path)), st) ∧
    get_text_from_pdf env st mp sp =
      (.error (.fileNotFound ("PDF file not found: " ++ env.path)), st) ∧
    (1 ≤ m → convert_to_text env st m =
      (.error (.fileNotFound ("PDF file not found: " ++ env.path)), st)) ∧
    (m < 1 → convert_to_text env st m = (.ok "Failed to generate study guide.", st)) :=
  ⟨extract_notfound env st mp sp si h1 h2,
   get_notfound env st mp sp h1 h2,
   convert_notfound env st m h1 h2,
   convert_empty env st m⟩

/-- Claim C9 (witness): the amended theorem applied to the missing-file
environment. -/
theorem c9_missing_file_not_found_witness :
    extract_text_from_pdf envMissing st0 (some 5) 1 false =
      (.error (.fileNotFound ("PDF file not found: " ++ envMissing.path)), st0) ∧
    get_text_from_pdf envMissing st0 (some 5) 1 =
      (.error (.fileNotFound ("PDF file not found: " ++ envMissing.path)), st0) ∧
    convert_to_text envMissing st0 5 =
      (.error (.fileNotFound ("PDF file not found: " ++ envMissing.path)), st0) :=
  ⟨(c9_missing_file_not_found envMissing st0 (some 5) 1 false 5 rfl rfl).1,
   (c9_missing_file_not_found envMissing st0 (some 5) 1 false 5 rfl rfl).2.1,
   (c9_missing_file_not_found envMissing st0 (some 5) 1 false 5 rfl rfl).2.2.1 (by decide)⟩

/-- Claim C6: after any `extract_text_from_pdf` call with
`save_images=False` — returning normally or failing at any point,
mid-batch OCR exceptions and timeouts included — a temporary image file
created during the call remains on disk exactly when its deletion failed,
and every failed deletion is logged without preventing the deletion of the
remaining temporary files. -/
theorem c6_cleanup_invariant (env : Env) (st : XSt) (mp : Option Nat) (sp : Nat)
    (hw : st.writes = []) :
    ∀ p, p ∈ (extract_text_from_pdf env st mp sp false).2.writes →
      fsExists (extract_text_from_pdf env st mp sp false).2.disk p = env.removeFails p ∧
      (env.removeFails p = true →
        cleanupMsg p ∈ (extract_text_from_pdf env st mp sp false).2.log) :=
  extract_cleanup_contract env st mp sp hw

/-- Claim C6 (witness): the invariant evaluated on a concrete run, at the
temporary image of page 1. -/
theorem c6_cleanup_invariant_witness :
    fsExists (extract_text_from_pdf env25 st0 (some 25) 1 false).2.disk (tempPath 1) =
      env25.removeFails (tempPath 1) :=
  (c6_cleanup_invariant env25 st0 (some 25) 1 rfl (tempPath 1) (by decide)).1

/-- Claim C7: for valid inputs on which no engine failure occurs,
`extract_text_from_pdf` succeeds with exactly one text, in ascending page
order, for every page of `[start_page, total_pages]` for which the
rasterizer yields an image (those up to the document's page count), and
each batch yielding no images contributes exactly one logged warning
instead of failing the call. -/
theorem c7_extract_pages_length_and_order (env : Env) (st : XSt) (mp : Option Nat)
    (sp : Nat) (si : Bool)
    (hrun : st.is_running = false)
    (hpdf : env.pdfExists = true)
    (hto : ∀ a b t, env.timesOut a b t = false)
    (hocr : ∀ p, env.ocrFails p = false)
    (hrm : ∀ p, env.removeFails p = false)
    (hsp : 1 ≤ sp)
    (hN : mp = none → 1 ≤ env.numPages) :
    (extract_text_from_pdf env st mp sp si).1 =
      .ok ((List.range' sp (min (extractTotal mp sp) env.numPages + 1 - sp)).map
        env.pageText) ∧
    (extract_text_from_pdf env st mp sp si).2.log =
      st.log ++ emptyBatchWarnings env (extractTotal mp sp) sp :=
  extract_ok env st mp sp si hrun hpdf hto hocr hrm hN

/-- Claim C7 (witness): a 3-page document processed with
`max_pages = 25`: pages 1-3 are returned in order and the two pageless
batches are logged as warnings. -/
theorem c7_extract_pages_length_and_order_witness :
    (extract_text_from_pdf env3 st0 (some 25) 1 false).1 =
      .ok ((List.range' 1 (min (extractTotal (some 25) 1) env3.numPages + 1 - 1)).map
        env3.pageText) ∧
    (extract_text_from_pdf env3 st0 (some 25) 1 false).2.log =
      st0.log ++ emptyBatchWarnings env3 (extractTotal (some 25) 1) 1 :=
  c7_extract_pages_length_and_order env3 st0 (some 25) 1 false rfl rfl
    (fun _ _ _ => rfl) (fun _ => rfl) (fun _ => rfl) (le_refl 1) (fun h => by cases h)

/-- Claim C8: whenever a rasterization call of the processing body exceeds
its time budget (the probe at 10 seconds or a batch at 30 seconds), the
extraction call fails with the generic processing `Exception` carrying the
descriptive timeout message, and the guaranteed cleanup has run: a file
written during the call remains on disk only when its deletion failed. -/
theorem c8_timeout_generic_error_after_cleanup (env : Env) (st : XSt) (mp : Option Nat)
    (sp : Nat)
    (hrun : st.is_running = false)
    (hpdf : env.pdfExists = true)
    (hw : st.writes = [])
    (ht : (extractInner env false mp sp (initJob st)).2 = some InnerErr.timeout) :
    (extract_text_from_pdf env st mp sp false).1 =
      .error (.exception "PDF processing timed out. The file might be too large or corrupt.") ∧
    ∀ p, p ∈ (extract_text_from_pdf env st mp sp false).2.writes →
      fsExists (extract_text_from_pdf env st mp sp false).2.disk p = env.removeFails p := by
  constructor
  · rw [extract_text_from_pdf, if_neg (by simp [hrun]), if_neg (by simp [hpdf])]
    unfold extractFinish
    simp only [ht]
  · intro p hp
    exact (extract_cleanup_contract env st mp sp hw p hp).1

/-- Claim C8 (witness): a document whose rasterization always times out
yields the wrapped generic error. -/
theorem c8_timeout_generic_error_after_cleanup_witness :
    (extract_text_from_pdf envTimeout st0 (some 5) 1 false).1 =
      .error (.exception "PDF processing timed out. The file might be too large or corrupt.") :=
  (c8_timeout_generic_error_after_cleanup envTimeout st0 (some 5) 1 rfl rfl rfl (by decide)).1
